import Mathlib

/-!
Verification of the SF Muni tracker (client script and Express server).

The JavaScript source is shallowly embedded: duck-typed JSON fields become
`Option`-valued fields, exceptions become `Except`, millisecond epoch times
are integers, and the DOM regions touched by the client sync loop become an
explicit `ClientState` record.
-/

/-- A dynamically typed JSON field value, for fields the code compares with
strict equality (such as `VehicleAtStop === 'true'`). -/
inductive JSVal where
  | str (s : String)
  | boolean (b : Bool)
  | num (n : Int)
  | null
deriving DecidableEq, Repr

/-- The fixed line set `trainLines = ['J','K','L','M','N','T']` (script.js). -/
def trainLines : List String := ["J", "K", "L", "M", "N", "T"]

/-- JS `a || b` on possibly-missing strings: the empty string and a missing
field are falsy, so both fall through to `b`. -/
def jsOrStr (a b : Option String) : Option String :=
  match a with
  | some s => if s = "" then b else some s
  | none => b

/-- JS `Math.round((arrivalTime - now) / 60000)` for an integer millisecond
difference `diff`: round half toward positive infinity, as floor of
`diff/60000 + 1/2`. -/
def jsRoundMinutes (diff : Int) : Int :=
  Int.fdiv (2 * diff + 60000) 120000

/-- `MonitoredCall` of a monitored vehicle journey (511.org stop monitoring).
`ExpectedArrivalTime` is the parsed epoch-millisecond value of the arrival
timestamp when present. -/
structure MonitoredCall where
  ExpectedArrivalTime : Option Int
  DestinationDisplay : Option String
  VehicleAtStop : Option JSVal
deriving DecidableEq, Repr

/-- `MonitoredVehicleJourney` of a visit. -/
structure MonitoredVehicleJourney where
  MonitoredCall : Option MonitoredCall
  DestinationName : Option String
deriving DecidableEq, Repr

/-- One entry of the `MonitoredStopVisit` array. -/
structure MonitoredStopVisit where
  MonitoredVehicleJourney : Option MonitoredVehicleJourney
deriving DecidableEq, Repr

/-- The prediction record built by `extractPredictions` (script.js 259-263). -/
structure Prediction where
  minutes : Int
  destination : Option String
  atStop : Bool
deriving DecidableEq, Repr

/-- The body of the `visits.map` callback in `extractPredictions`
(script.js 246-268): `null` when the journey, its `MonitoredCall`, or its
`ExpectedArrivalTime` is missing, or when the rounded minutes-away is
negative; otherwise the prediction record. -/
def processVisit (now : Int) (visit : MonitoredStopVisit) : Option Prediction :=
  match visit.MonitoredVehicleJourney with
  | none => none
  | some journey =>
    match journey.MonitoredCall with
    | none => none
    | some call =>
      match call.ExpectedArrivalTime with
      | none => none
      | some arrivalTime =>
        let minutesAway := jsRoundMinutes (arrivalTime - now)
        if minutesAway < 0 then none
        else some
          { minutes := minutesAway
            destination := jsOrStr call.DestinationDisplay journey.DestinationName
            atStop := decide (call.VehicleAtStop = some (JSVal.str "true")) }

/-- The comparator `(a, b) => a.minutes - b.minutes` as a sort order. -/
def predLe (a b : Prediction) : Bool :=
  a.minutes ≤ b.minutes

/-- `extractPredictions` on the visit list (script.js 245-270): map each
visit through `processVisit`, drop the nulls, sort ascending by minutes. -/
def extractPredictionsVisits (now : Int) (visits : List MonitoredStopVisit) :
    List Prediction :=
  ((visits.map (processVisit now)).reduceOption).mergeSort predLe

/-- `StopMonitoringDelivery` with its possibly-missing visit array. -/
structure StopMonitoringDelivery where
  MonitoredStopVisit : Option (List MonitoredStopVisit)
deriving DecidableEq, Repr

/-- `ServiceDelivery` wrapper. -/
structure ServiceDelivery where
  StopMonitoringDelivery : Option StopMonitoringDelivery
deriving DecidableEq, Repr

/-- The per-stop payload handed to `extractPredictions` and
`updatePredictionsDisplay`: a stop name plus the raw `ServiceDelivery`. -/
structure StopData where
  stopName : String
  ServiceDelivery : Option ServiceDelivery
deriving DecidableEq, Repr

/-- The optional chain
`stopData?.ServiceDelivery?.StopMonitoringDelivery?.MonitoredStopVisit`
(script.js 239). -/
def stopDataVisits (stopData : Option StopData) : Option (List MonitoredStopVisit) :=
  match stopData with
  | none => none
  | some sd =>
    match sd.ServiceDelivery with
    | none => none
    | some svc =>
      match svc.StopMonitoringDelivery with
      | none => none
      | some del => del.MonitoredStopVisit

/-- `extractPredictions` (script.js 237-275): empty list when the optional
chain to the visit array fails, otherwise the processed visit list. -/
def extractPredictions (now : Int) (stopData : Option StopData) : List Prediction :=
  match stopDataVisits stopData with
  | none => []
  | some visits => extractPredictionsVisits now visits

/-- A visit is malformed when it lacks one of the fields `extractPredictions`
requires before computing a minutes-away value: the journey itself, its
`MonitoredCall`, or the call's `ExpectedArrivalTime`. -/
def malformedVisit (visit : MonitoredStopVisit) : Prop :=
  visit.MonitoredVehicleJourney = none ∨
    ∃ journey, visit.MonitoredVehicleJourney = some journey ∧
      (journey.MonitoredCall = none ∨
        ∃ call, journey.MonitoredCall = some call ∧ call.ExpectedArrivalTime = none)

lemma predLe_trans (a b c : Prediction) (hab : predLe a b = true)
    (hbc : predLe b c = true) : predLe a c = true := by
  simp only [predLe, decide_eq_true_eq] at *
  exact le_trans hab hbc

lemma predLe_total (a b : Prediction) : (predLe a b || predLe b a) = true := by
  simp only [predLe, Bool.or_eq_true, decide_eq_true_eq]
  exact le_total a.minutes b.minutes

lemma processVisit_nonneg (now : Int) (visit : MonitoredStopVisit)
    (p : Prediction) (h : processVisit now visit = some p) : 0 ≤ p.minutes := by
  unfold processVisit at h
  cases hj : visit.MonitoredVehicleJourney with
  | none => simp [hj] at h
  | some journey =>
    cases hc : journey.MonitoredCall with
    | none => simp [hj, hc] at h
    | some call =>
      cases ht : call.ExpectedArrivalTime with
      | none => simp [hj, hc, ht] at h
      | some arrivalTime =>
        simp only [hj, hc, ht] at h
        by_cases hneg : jsRoundMinutes (arrivalTime - now) < 0
        · simp [hneg] at h
        · simp only [hneg, if_false] at h
          cases h
          exact le_of_not_lt hneg

lemma processVisit_of_malformed (now : Int) (visit : MonitoredStopVisit)
    (h : malformedVisit visit) : processVisit now visit = none := by
  unfold processVisit
  rcases h with hj | ⟨journey, hj, hc | ⟨call, hc, ht⟩⟩
  · simp [hj]
  · simp [hj, hc]
  · simp [hj, hc, ht]

/-- C1: for every clock value and every raw visit list (hence for any input
order), `extractPredictions` drops visits lacking an expected-arrival
timestamp (and those whose rounded minutes-away is negative), and the output
is sorted ascending by `minutes` with every entry non-negative. -/
theorem extractPredictions_sorted_nonneg (now : Int)
    (visits : List MonitoredStopVisit) :
    (∀ v ∈ visits, malformedVisit v → processVisit now v = none) ∧
    List.Pairwise (fun a b => predLe a b = true)
      (extractPredictionsVisits now visits) ∧
    (∀ p ∈ extractPredictionsVisits now visits, 0 ≤ p.minutes) := by
  refine ⟨fun v _ hv => processVisit_of_malformed now v hv, ?_, ?_⟩
  · exact List.sorted_mergeSort predLe_trans predLe_total _
  · intro p hp
    rw [extractPredictionsVisits, List.mem_mergeSort] at hp
    have hmem := List.reduceOption_mem_iff.mp hp
    rcases List.mem_map.mp hmem with ⟨v, _, hv⟩
    exact processVisit_nonneg now v p hv

/-- C1 witness: at a concrete clock and a concrete out-of-order visit list
the hypotheses hold and the processed output is sorted and non-negative. -/
theorem extractPredictions_sorted_nonneg_witness :
    (∀ v ∈ ([⟨some ⟨some ⟨some 420000, some "Embarcadero", none⟩, some "Caltrain"⟩⟩,
             ⟨some ⟨some ⟨some 120000, none, some (JSVal.str "true")⟩, some "Balboa Park"⟩⟩,
             ⟨none⟩] : List MonitoredStopVisit),
        malformedVisit v → processVisit 0 v = none) ∧
    List.Pairwise (fun a b => predLe a b = true)
      (extractPredictionsVisits 0
        [⟨some ⟨some ⟨some 420000, some "Embarcadero", none⟩, some "Caltrain"⟩⟩,
         ⟨some ⟨some ⟨some 120000, none, some (JSVal.str "true")⟩, some "Balboa Park"⟩⟩,
         ⟨none⟩]) ∧
    (∀ p ∈ extractPredictionsVisits 0
        [⟨some ⟨some ⟨some 420000, some "Embarcadero", none⟩, some "Caltrain"⟩⟩,
         ⟨some ⟨some ⟨some 120000, none, some (JSVal.str "true")⟩, some "Balboa Park"⟩⟩,
         ⟨none⟩], 0 ≤ p.minutes) :=
  extractPredictions_sorted_nonneg 0 _

lemma reduceOption_eq_nil_of_all_none {l : List (Option Prediction)}
    (h : ∀ x ∈ l, x = none) : l.reduceOption = [] := by
  induction l with
  | nil => rfl
  | cons hd tl ih =>
    have hhd := h hd (List.mem_cons_self hd tl)
    subst hhd
    rw [List.reduceOption_cons_of_none]
    exact ih fun x hx => h x (List.mem_cons_of_mem _ hx)

/-- C8: an empty visit list, a fully malformed visit list, and stop data
whose optional chain to the visit array fails all yield an empty prediction
array; `extractPredictions` is total, so no failure is thrown. -/
theorem extractPredictions_empty_or_malformed (now : Int)
    (visits : List MonitoredStopVisit) (stopData : Option StopData)
    (hmal : ∀ v ∈ visits, malformedVisit v) :
    extractPredictionsVisits now [] = [] ∧
    extractPredictionsVisits now visits = [] ∧
    (stopDataVisits stopData = none → extractPredictions now stopData = []) := by
  refine ⟨by simp [extractPredictionsVisits], ?_, ?_⟩
  · unfold extractPredictionsVisits
    have hall : ∀ x ∈ visits.map (processVisit now), x = none := by
      intro x hx
      rcases List.mem_map.mp hx with ⟨v, hv, rfl⟩
      exact processVisit_of_malformed now v (hmal v hv)
    rw [reduceOption_eq_nil_of_all_none hall]
    simp
  · intro hchain
    unfold extractPredictions
    rw [hchain]

/-- C8 witness: a concrete fully-malformed visit list (one visit with no
journey, one with no monitored call, one with no arrival time) satisfies the
hypothesis and produces an empty output, as does a chain-less payload. -/
theorem extractPredictions_empty_or_malformed_witness :
    extractPredictionsVisits 0 [] = [] ∧
    extractPredictionsVisits 0
      [⟨none⟩, ⟨some ⟨none, some "Ocean Beach"⟩⟩,
       ⟨some ⟨some ⟨none, some "Judah", none⟩, none⟩⟩] = [] ∧
    (stopDataVisits (some ⟨"Stop #15779", none⟩) = none →
      extractPredictions 0 (some ⟨"Stop #15779", none⟩) = []) :=
  extractPredictions_empty_or_malformed 0
    [⟨none⟩, ⟨some ⟨none, some "Ocean Beach"⟩⟩,
     ⟨some ⟨some ⟨none, some "Judah", none⟩, none⟩⟩]
    (some ⟨"Stop #15779", none⟩)
    (by
      intro v hv
      fin_cases hv
      · exact Or.inl rfl
      · exact Or.inr ⟨_, rfl, Or.inl rfl⟩
      · exact Or.inr ⟨_, rfl, Or.inr ⟨_, rfl, rfl⟩⟩)

/-- C9: a prediction produced from a visit has `atStop = true` exactly when
the upstream `VehicleAtStop` field is the string "true" (strict equality in
the source); a JSON boolean, another string, or an absent field gives
`atStop = false`. -/
theorem processVisit_atStop_iff (now : Int) (call : MonitoredCall)
    (destinationName : Option String) (p : Prediction)
    (hp : processVisit now ⟨some ⟨some call, destinationName⟩⟩ = some p) :
    (p.atStop = true ↔ call.VehicleAtStop = some (JSVal.str "true")) := by
  simp only [processVisit] at hp
  split at hp
  · exact absurd hp (by simp)
  · split at hp
    · exact absurd hp (by simp)
    · cases hp
      simp

/-- C9 witness: a visit whose `VehicleAtStop` is the JSON boolean `true`
(not the string) yields a prediction with `atStop = false`. -/
theorem processVisit_atStop_iff_witness :
    ((Prediction.mk 1 (some "Embarcadero") false).atStop = true ↔
      (MonitoredCall.mk (some 60000) (some "Embarcadero")
        (some (JSVal.boolean true))).VehicleAtStop = some (JSVal.str "true")) :=
  processVisit_atStop_iff 0
    ⟨some 60000, some "Embarcadero", some (JSVal.boolean true)⟩
    none ⟨1, some "Embarcadero", false⟩ (by decide)

/-- JS `a || d` for an optional query-string value with a string default:
a missing parameter and the empty string are both falsy. -/
def jsOrDefault (a : Option String) (d : String) : String :=
  match a with
  | some s => if s = "" then d else s
  | none => d

/-- Upstream 511.org stop-monitoring payload as used by the server: only its
`ServiceDelivery` member is read. -/
structure UpstreamPred where
  ServiceDelivery : Option ServiceDelivery
deriving DecidableEq, Repr

/-- The `STOPS` table (server, lines 853-856). -/
def STOPS : List (String × String) :=
  [("17109", "Inbound to Downtown"), ("16503", "Outbound to Ocean Beach")]

/-- `STOPS[stopId] || 'Stop #' + stopId` (server, lines 923 and 927). -/
def stopNameFor (stopId : String) : String :=
  match STOPS.find? (fun kv => kv.1 = stopId) with
  | some kv => kv.2
  | none => "Stop #" ++ stopId

/-- One direction of the `/api/predictions` response body. -/
structure StopPredictions where
  stopName : String
  ServiceDelivery : Option ServiceDelivery
deriving DecidableEq, Repr

/-- The `/api/predictions` response body. -/
structure PredictionsResponse where
  inbound : StopPredictions
  outbound : StopPredictions
deriving DecidableEq, Repr

/-- The `/api/predictions` handler (server, lines 905-937).
`getStopPredictions` stands for the upstream call per stop; `Promise.all`
rejects when either call rejects, and the catch block answers with the
single error body `Failed to fetch predictions`. -/
def apiPredictions (getStopPredictions : String → Except String UpstreamPred)
    (inboundQuery outboundQuery : Option String) :
    Except String PredictionsResponse :=
  match getStopPredictions (jsOrDefault inboundQuery "17109"),
      getStopPredictions (jsOrDefault outboundQuery "16503") with
  | Except.ok inbound, Except.ok outbound =>
    Except.ok
      { inbound :=
          { stopName := stopNameFor (jsOrDefault inboundQuery "17109")
            ServiceDelivery := inbound.ServiceDelivery }
        outbound :=
          { stopName := stopNameFor (jsOrDefault outboundQuery "16503")
            ServiceDelivery := outbound.ServiceDelivery } }
  | Except.error _, _ => Except.error "Failed to fetch predictions"
  | _, Except.error _ => Except.error "Failed to fetch predictions"

/-- C2: if the upstream call for the inbound stop or for the outbound stop
fails, the whole `/api/predictions` handler fails with the error body and
returns no single-direction result; a successful result carries the
`ServiceDelivery` of both directions. -/
theorem apiPredictions_all_or_nothing
    (getStopPredictions : String → Except String UpstreamPred)
    (inboundQuery outboundQuery : Option String) :
    (∀ e, getStopPredictions (jsOrDefault inboundQuery "17109") = Except.error e →
      apiPredictions getStopPredictions inboundQuery outboundQuery =
        Except.error "Failed to fetch predictions") ∧
    (∀ e, getStopPredictions (jsOrDefault outboundQuery "16503") = Except.error e →
      apiPredictions getStopPredictions inboundQuery outboundQuery =
        Except.error "Failed to fetch predictions") ∧
    (∀ r, apiPredictions getStopPredictions inboundQuery outboundQuery = Except.ok r →
      ∃ i o, getStopPredictions (jsOrDefault inboundQuery "17109") = Except.ok i ∧
        getStopPredictions (jsOrDefault outboundQuery "16503") = Except.ok o ∧
        r.inbound.ServiceDelivery = i.ServiceDelivery ∧
        r.outbound.ServiceDelivery = o.ServiceDelivery) := by
  refine ⟨?_, ?_, ?_⟩
  · intro e he
    unfold apiPredictions
    rw [he]
    cases getStopPredictions (jsOrDefault outboundQuery "16503") <;> rfl
  · intro e he
    unfold apiPredictions
    rw [he]
    cases getStopPredictions (jsOrDefault inboundQuery "17109") <;> rfl
  · intro r hr
    unfold apiPredictions at hr
    cases hi : getStopPredictions (jsOrDefault inboundQuery "17109") with
    | error e => rw [hi] at hr; exact absurd hr (by simp)
    | ok i =>
      cases ho : getStopPredictions (jsOrDefault outboundQuery "16503") with
      | error e => rw [hi, ho] at hr; exact absurd hr (by simp)
      | ok o =>
        rw [hi, ho] at hr
        cases hr
        exact ⟨i, o, rfl, rfl, rfl, rfl⟩

/-- C2 witness: a concrete upstream that fails on the defaulted inbound stop
id makes the whole handler fail with the error body. -/
theorem apiPredictions_all_or_nothing_witness :
    apiPredictions
      (fun stopId => if stopId = "17109"
        then Except.error "Request failed with status code 500"
        else Except.ok ⟨none⟩)
      none none = Except.error "Failed to fetch predictions" :=
  (apiPredictions_all_or_nothing
    (fun stopId => if stopId = "17109"
      then Except.error "Request failed with status code 500"
      else Except.ok ⟨none⟩)
    none none).1 "Request failed with status code 500" rfl

/-- GTFS-realtime trip descriptor, as read by the vehicles endpoint. -/
structure TripDescriptor where
  routeId : String
  directionId : Option Int
deriving DecidableEq, Repr

/-- GTFS-realtime vehicle descriptor (only `id` is read). -/
structure VehicleDescriptor where
  id : Option String
deriving DecidableEq, Repr

/-- protobuf.js two-word representation of a 64-bit integer, as it appears
after JSON serialization of a decoded feed (both words signed 32-bit). -/
structure Long where
  low : Int
  high : Int
deriving DecidableEq, Repr

/-- GTFS-realtime position. The raw coordinate and speed payloads are never
computed with by the server, so they are carried opaquely as integers. -/
structure Position where
  latitude : Option Int
  longitude : Option Int
  speed : Option Int
deriving DecidableEq, Repr

/-- The `vehicle` member of a feed entity. -/
structure VehicleInfo where
  trip : Option TripDescriptor
  vehicle : Option VehicleDescriptor
  position : Option Position
  currentStatus : Option Int
  currentStopSequence : Option Int
  stopId : Option String
  timestamp : Option Long
deriving DecidableEq, Repr

/-- One entity of the decoded feed. -/
structure FeedEntity where
  vehicle : Option VehicleInfo
deriving DecidableEq, Repr

/-- The decoded GTFS-realtime feed. -/
structure FeedMessage where
  entity : List FeedEntity
deriving DecidableEq, Repr

/-- The filter callback of `feed.entity.filter` (server, lines 1016-1018):
`entity.vehicle && entity.vehicle.trip && ['J','K','L','M','N','T'].includes(entity.vehicle.trip.routeId)`. -/
def isSfMtaTrain (entity : FeedEntity) : Bool :=
  match entity.vehicle with
  | none => false
  | some v =>
    match v.trip with
    | none => false
    | some trip => decide (trip.routeId ∈ ["J", "K", "L", "M", "N", "T"])

/-- JS template-literal interpolation of a possibly-undefined string: the
value `undefined` is stringified as "undefined". -/
def jsTemplateOptStr (s : Option String) : String :=
  match s with
  | some s => s
  | none => "undefined"

/-- The `switch (vehicle.currentStatus)` mapping (server, lines 1052-1064);
the switch compares with strict equality, so an absent status falls to the
default branch. -/
def vehicleStatusLabel (currentStatus : Option Int) : String :=
  if currentStatus = some 0 then "Incoming"
  else if currentStatus = some 1 then "Stopped"
  else if currentStatus = some 2 then "In Transit"
  else "Unknown"

/-- `getStopName` (server, lines 1045-1047): `STOPS[stopId] || 'Unknown Stop'`,
where an undefined stop id indexes to undefined. -/
def getStopName (stopId : Option String) : String :=
  match stopId with
  | some s =>
    match STOPS.find? (fun kv => kv.1 = s) with
    | some kv => kv.2
    | none => "Unknown Stop"
  | none => "Unknown Stop"

/-- One record of the `/api/vehicles` response (server, lines 1023-1040 plus
the `readableStatus` added at line 1066). -/
structure VehicleRecord where
  trainId : String
  routeId : String
  direction : Option Int
  stopId : Option String
  currentStopSequence : Option Int
  currentStatus : Option Int
  latitude : Option Int
  longitude : Option Int
  speed : Option Int
  timestamp : Option Long
  rawTimestamp : Option Long
  readableStatus : String
deriving DecidableEq, Repr

/-- The record built for one retained entity whose `vehicle` and `trip` are
present (guaranteed by the filter). -/
def prettifyVehicle (v : VehicleInfo) (trip : TripDescriptor) : VehicleRecord :=
  { trainId := trip.routeId ++ jsTemplateOptStr (v.vehicle.bind VehicleDescriptor.id)
    routeId := trip.routeId
    direction := trip.directionId
    stopId := v.stopId
    currentStopSequence := v.currentStopSequence
    currentStatus := v.currentStatus
    latitude := v.position.bind Position.latitude
    longitude := v.position.bind Position.longitude
    speed := v.position.bind Position.speed
    timestamp := v.timestamp
    rawTimestamp := v.timestamp
    readableStatus := vehicleStatusLabel v.currentStatus ++ " at " ++ getStopName v.stopId }

/-- The `sfMtaTrains.map` callback. The `none` branches are unreachable for
entities that passed `isSfMtaTrain`; they are given harmless placeholders to
keep the embedding total. -/
def prettifyEntity (entity : FeedEntity) : VehicleRecord :=
  match entity.vehicle with
  | some v =>
    match v.trip with
    | some trip => prettifyVehicle v trip
    | none => prettifyVehicle v ⟨"", none⟩
  | none => prettifyVehicle ⟨none, none, none, none, none, none, none⟩ ⟨"", none⟩

/-- The `/api/vehicles` response body. -/
structure VehiclesResponse where
  vehicles : List VehicleRecord
deriving DecidableEq, Repr

/-- The `/api/vehicles` handler (server, lines 991-1077): with the protobuf
schema not yet loaded it throws, and the catch answers a 500 error body; an
upstream or decode failure does the same; otherwise the decoded entities are
filtered to the fixed line set and prettified. -/
def apiVehicles (schemaLoaded : Bool) (upstream : Except String FeedMessage) :
    Except String VehiclesResponse :=
  if !schemaLoaded then
    Except.error "Failed to fetch vehicle positions: Protobuf schema not loaded"
  else
    match upstream with
    | Except.error e => Except.error ("Failed to fetch vehicle positions: " ++ e)
    | Except.ok feed =>
      Except.ok ⟨(feed.entity.filter isSfMtaTrain).map prettifyEntity⟩

/-- C3: on a successful decode the output is exactly the prettified retained
entities: a record appears iff some entity has a vehicle trip whose route id
is in the fixed line set; each record's `trainId` is the concatenation of
the route id with the (JS-stringified) vehicle id; and `readableStatus`
starts with the label Incoming/Stopped/In Transit for status 0/1/2 and
Unknown for anything else. -/
theorem apiVehicles_filter_and_shape (feed : FeedMessage) :
    apiVehicles true (Except.ok feed) =
      Except.ok ⟨(feed.entity.filter isSfMtaTrain).map prettifyEntity⟩ ∧
    (∀ r, r ∈ (feed.entity.filter isSfMtaTrain).map prettifyEntity ↔
      ∃ e, e ∈ feed.entity ∧ isSfMtaTrain e = true ∧ r = prettifyEntity e) ∧
    (∀ e ∈ feed.entity, ∀ v trip, e.vehicle = some v → v.trip = some trip →
      ((isSfMtaTrain e = true ↔ trip.routeId ∈ ["J", "K", "L", "M", "N", "T"]) ∧
       (prettifyEntity e).trainId =
         trip.routeId ++ jsTemplateOptStr (v.vehicle.bind VehicleDescriptor.id) ∧
       (∀ vd vehicleId, v.vehicle = some vd → vd.id = some vehicleId →
         (prettifyEntity e).trainId = trip.routeId ++ vehicleId) ∧
       (prettifyEntity e).readableStatus =
         vehicleStatusLabel v.currentStatus ++ " at " ++ getStopName v.stopId)) ∧
    (vehicleStatusLabel (some 0) = "Incoming" ∧
     vehicleStatusLabel (some 1) = "Stopped" ∧
     vehicleStatusLabel (some 2) = "In Transit" ∧
     ∀ c : Option Int, c ≠ some 0 → c ≠ some 1 → c ≠ some 2 →
       vehicleStatusLabel c = "Unknown") := by
  refine ⟨rfl, ?_, ?_, rfl, rfl, rfl, ?_⟩
  · intro r
    constructor
    · intro hr
      rcases List.mem_map.mp hr with ⟨e, he, rfl⟩
      rcases List.mem_filter.mp he with ⟨hmem, hpass⟩
      exact ⟨e, hmem, hpass, rfl⟩
    · rintro ⟨e, hmem, hpass, rfl⟩
      exact List.mem_map_of_mem _ (List.mem_filter.mpr ⟨hmem, hpass⟩)
  · intro e _ v trip hv ht
    refine ⟨?_, ?_, ?_, ?_⟩
    · simp [isSfMtaTrain, hv, ht]
    · simp [prettifyEntity, prettifyVehicle, hv, ht]
    · intro vd vehicleId hvd hid
      simp [prettifyEntity, prettifyVehicle, hv, ht, hvd, hid, jsTemplateOptStr]
    · simp [prettifyEntity, prettifyVehicle, hv, ht]
  · intro c h0 h1 h2
    unfold vehicleStatusLabel
    rw [if_neg h0, if_neg h1, if_neg h2]

/-- Concrete K-line feed entity for the C3 witness. -/
def entK : FeedEntity :=
  ⟨some ⟨some ⟨"K", some 0⟩, some ⟨some "2034"⟩, some ⟨some 37, some (-122), none⟩,
    some 2, some 5, some "17109", some ⟨1700000000, 0⟩⟩⟩

/-- Concrete non-metro feed entity (route "X") for the C3 witness. -/
def entX : FeedEntity :=
  ⟨some ⟨some ⟨"X", some 1⟩, some ⟨some "9901"⟩, none, some 1, none, none, none⟩⟩

/-- C3 witness: at the two-entity feed with routes "K" and "X", the retained
"K" entity gets `trainId = "K" ++ "2034"` and a readable status built from
the In Transit label. -/
theorem apiVehicles_filter_and_shape_witness :
    (isSfMtaTrain entK = true ↔ "K" ∈ ["J", "K", "L", "M", "N", "T"]) ∧
    (prettifyEntity entK).trainId =
      "K" ++ jsTemplateOptStr ((some (VehicleDescriptor.mk (some "2034"))).bind
        VehicleDescriptor.id) ∧
    (∀ vd vehicleId, some (VehicleDescriptor.mk (some "2034")) = some vd →
      vd.id = some vehicleId → (prettifyEntity entK).trainId = "K" ++ vehicleId) ∧
    (prettifyEntity entK).readableStatus =
      vehicleStatusLabel (some 2) ++ " at " ++ getStopName (some "17109") :=
  (apiVehicles_filter_and_shape ⟨[entK, entX]⟩).2.2.1 entK
    (List.mem_cons_self _ _)
    ⟨some ⟨"K", some 0⟩, some ⟨some "2034"⟩, some ⟨some 37, some (-122), none⟩,
      some 2, some 5, some "17109", some ⟨1700000000, 0⟩⟩
    ⟨"K", some 0⟩ rfl rfl

/-- C7: a vehicles request arriving before the protobuf schema has loaded
answers the explicit 500 error body, whatever the upstream would have
returned; it is never an ok (in particular never an empty-but-successful
vehicle list). -/
theorem apiVehicles_schema_not_loaded (upstream : Except String FeedMessage) :
    apiVehicles false upstream =
      Except.error "Failed to fetch vehicle positions: Protobuf schema not loaded" ∧
    ∀ r : VehiclesResponse, apiVehicles false upstream ≠ Except.ok r := by
  refine ⟨rfl, ?_⟩
  intro r h
  rw [show apiVehicles false upstream =
      Except.error "Failed to fetch vehicle positions: Protobuf schema not loaded"
    from rfl] at h
  exact Except.noConfusion h

/-- C7 witness: with the schema unloaded and an upstream that would have
decoded to an empty feed, the handler still answers the error body and not
the empty-but-successful list. -/
theorem apiVehicles_schema_not_loaded_witness :
    apiVehicles false (Except.ok ⟨[]⟩) =
      Except.error "Failed to fetch vehicle positions: Protobuf schema not loaded" ∧
    apiVehicles false (Except.ok ⟨[]⟩) ≠ Except.ok ⟨[]⟩ :=
  ⟨(apiVehicles_schema_not_loaded (Except.ok ⟨[]⟩)).1,
   (apiVehicles_schema_not_loaded (Except.ok ⟨[]⟩)).2 ⟨[]⟩⟩

/-- One stop of the static `train-routes.json` dataset. The generator only
writes stops that have a truthy `ScheduledStopPointRef` and `Name`, but the
loader re-checks; a missing or empty field is modelled as the empty string
since both are falsy under the loader's `stop.id && stop.name` guard. -/
structure RouteStop where
  id : String
  name : String
  lat : Option String
  long : Option String
deriving DecidableEq, Repr

/-- One route of the static dataset. -/
structure TrainRoute where
  line : String
  stops : List RouteStop
deriving DecidableEq, Repr

/-- The static dataset: `{routes: [...]}`. -/
structure RoutesData where
  routes : List TrainRoute
deriving DecidableEq, Repr

/-- The value stored in the `allStops` map (script.js 37-42). -/
structure StopDetails where
  name : String
  line : String
  lat : Option String
  long : Option String
deriving DecidableEq, Repr

/-- `allStops.set(stop.id, {...})`: a JS Map keyed by stop id, modelled as a
lookup function where a later set overrides an earlier one. -/
def mapSet (m : String → Option StopDetails) (k : String) (v : StopDetails) :
    String → Option StopDetails :=
  fun q => if q = k then some v else m q

/-- The inner `route.stops.forEach` of `loadAllStops` (script.js 35-44):
insert each stop whose `id` and `name` are truthy. -/
def loadRouteStops (route : TrainRoute) (m : String → Option StopDetails) :
    String → Option StopDetails :=
  route.stops.foldl
    (fun m stop =>
      if stop.id ≠ "" ∧ stop.name ≠ "" then
        mapSet m stop.id ⟨stop.name, route.line, stop.lat, stop.long⟩
      else m)
    m

/-- `loadAllStops` (script.js 28-49): fold all routes' stops into the map,
starting from the empty map. -/
def loadAllStops (data : RoutesData) : String → Option StopDetails :=
  data.routes.foldl (fun m route => loadRouteStops route m) (fun _ => none)

/-- The result record of `validateStop` (script.js 56-62). -/
structure StopValidation where
  isValid : Bool
  details : Option StopDetails
deriving DecidableEq, Repr

/-- `validateStop` (script.js 56-62): look the id up in `allStops`;
`isValid` is the truthiness of the lookup result. -/
def validateStop (allStops : String → Option StopDetails) (stopId : String) :
    StopValidation :=
  { isValid := (allStops stopId).isSome
    details := allStops stopId }

lemma mapSet_isSome_mono (m : String → Option StopDetails) (k q : String)
    (v : StopDetails) (h : (m q).isSome = true) :
    ((mapSet m k v) q).isSome = true := by
  unfold mapSet
  by_cases hq : q = k
  · simp [hq]
  · simp [hq, h]

/-- The step function of the inner stops fold, for a fixed route line. -/
def insertStop (line : String) (m : String → Option StopDetails)
    (stop : RouteStop) : String → Option StopDetails :=
  if stop.id ≠ "" ∧ stop.name ≠ "" then
    mapSet m stop.id ⟨stop.name, line, stop.lat, stop.long⟩
  else m

lemma insertStop_isSome_mono (line : String) (m : String → Option StopDetails)
    (stop : RouteStop) (q : String) (h : (m q).isSome = true) :
    ((insertStop line m stop) q).isSome = true := by
  unfold insertStop
  by_cases hc : stop.id ≠ "" ∧ stop.name ≠ ""
  · rw [if_pos hc]
    exact mapSet_isSome_mono m stop.id q _ h
  · rw [if_neg hc]
    exact h

lemma foldStops_isSome_mono (line : String) (stops : List RouteStop)
    (m : String → Option StopDetails) (q : String) (h : (m q).isSome = true) :
    ((stops.foldl (insertStop line) m) q).isSome = true := by
  induction stops generalizing m with
  | nil => exact h
  | cons hd rest ih =>
    exact ih _ (insertStop_isSome_mono line m hd q h)

lemma foldStops_hits (line : String) (stops : List RouteStop)
    (m : String → Option StopDetails) (stop : RouteStop) (hmem : stop ∈ stops)
    (hid : stop.id ≠ "") (hname : stop.name ≠ "") :
    ((stops.foldl (insertStop line) m) stop.id).isSome = true := by
  induction stops generalizing m with
  | nil => exact absurd hmem (List.not_mem_nil stop)
  | cons hd rest ih =>
    rcases List.mem_cons.mp hmem with rfl | htl
    · simp only [List.foldl_cons]
      refine foldStops_isSome_mono line rest _ stop.id ?_
      unfold insertStop
      rw [if_pos ⟨hid, hname⟩]
      simp [mapSet]
    · simp only [List.foldl_cons]
      exact ih _ htl

lemma loadRouteStops_eq_foldStops (route : TrainRoute)
    (m : String → Option StopDetails) :
    loadRouteStops route m = route.stops.foldl (insertStop route.line) m := by
  rfl

lemma foldRoutes_isSome_mono (routes : List TrainRoute)
    (m : String → Option StopDetails) (q : String) (h : (m q).isSome = true) :
    ((routes.foldl (fun m route => loadRouteStops route m) m) q).isSome = true := by
  induction routes generalizing m with
  | nil => exact h
  | cons hd rest ih =>
    simp only [List.foldl_cons]
    refine ih _ ?_
    rw [loadRouteStops_eq_foldStops]
    exact foldStops_isSome_mono hd.line hd.stops m q h

lemma foldRoutes_hits (routes : List TrainRoute)
    (m : String → Option StopDetails) (route : TrainRoute) (stop : RouteStop)
    (hroute : route ∈ routes) (hmem : stop ∈ route.stops)
    (hid : stop.id ≠ "") (hname : stop.name ≠ "") :
    ((routes.foldl (fun m route => loadRouteStops route m) m) stop.id).isSome
      = true := by
  induction routes generalizing m with
  | nil => exact absurd hroute (List.not_mem_nil route)
  | cons hd rest ih =>
    rcases List.mem_cons.mp hroute with rfl | htl
    · simp only [List.foldl_cons]
      refine foldRoutes_isSome_mono rest _ stop.id ?_
      rw [loadRouteStops_eq_foldStops]
      exact foldStops_hits route.line route.stops m stop hmem hid hname
    · simp only [List.foldl_cons]
      exact ih _ htl

/-- C6: loading the static dataset then validating any stop id it contains
succeeds, provided the stop carries the truthy id and name that the offline
generator guarantees (it only emits stops with both present). -/
theorem loadAllStops_validateStop_roundtrip (data : RoutesData)
    (route : TrainRoute) (stop : RouteStop)
    (hroute : route ∈ data.routes) (hmem : stop ∈ route.stops)
    (hid : stop.id ≠ "") (hname : stop.name ≠ "") :
    (validateStop (loadAllStops data) stop.id).isValid = true := by
  unfold validateStop loadAllStops
  exact foldRoutes_hits data.routes _ route stop hroute hmem hid hname

/-- C6 witness: a concrete two-line dataset containing stop 15779 on the K
line validates that stop after load. -/
theorem loadAllStops_validateStop_roundtrip_witness :
    (validateStop
      (loadAllStops
        ⟨[⟨"K", [⟨"15779", "West Portal Station", some "37.7410", some "-122.4662"⟩,
                 ⟨"15780", "West Portal Station", some "37.7407", some "-122.4660"⟩]⟩,
          ⟨"N", [⟨"15223", "Carl St and Cole St", none, none⟩]⟩]⟩)
      "15779").isValid = true :=
  loadAllStops_validateStop_roundtrip
    ⟨[⟨"K", [⟨"15779", "West Portal Station", some "37.7410", some "-122.4662"⟩,
             ⟨"15780", "West Portal Station", some "37.7407", some "-122.4660"⟩]⟩,
      ⟨"N", [⟨"15223", "Carl St and Cole St", none, none⟩]⟩]⟩
    ⟨"K", [⟨"15779", "West Portal Station", some "37.7410", some "-122.4662"⟩,
           ⟨"15780", "West Portal Station", some "37.7407", some "-122.4660"⟩]⟩
    ⟨"15779", "West Portal Station", some "37.7410", some "-122.4662"⟩
    (List.mem_cons_self _ _) (List.mem_cons_self _ _)
    (by decide) (by decide)

/-- Bit length of a natural number, structurally recursive on a fuel bound
so that it evaluates inside the kernel; `bitLen n` is the exact bit length
for every `n < 2 ^ 128`, far beyond any value these claims touch. -/
def bitLenAux : Nat → Nat → Nat
  | 0, _ => 0
  | fuel + 1, n => if n = 0 then 0 else bitLenAux fuel (n / 2) + 1

/-- Bit length with fuel 128. -/
def bitLen (n : Nat) : Nat :=
  bitLenAux 128 n

/-- Round an integer to the nearest integer value representable in an IEEE
754 binary64 significand (53 bits), ties to even: the rounding a JS number
applies to any integer-valued arithmetic result. Integers below `2 ^ 53` in
magnitude are exact. -/
def nearestDouble (n : Int) : Int :=
  if n.natAbs < 2 ^ 53 then n
  else
    let s := bitLen n.natAbs - 53
    let q := n.natAbs / 2 ^ s
    let r := n.natAbs % 2 ^ s
    let mid := 2 ^ (s - 1)
    let q2 :=
      if r > mid then q + 1
      else if r < mid then q
      else if q % 2 = 0 then q else q + 1
    n.sign * (q2 * 2 ^ s)

/-- JS multiplication of two integer-valued numbers (each already
representable): the exact product rounded to the nearest double. -/
def jsMulInt (a b : Int) : Int :=
  nearestDouble (a * b)

/-- JS addition of two integer-valued numbers (each already representable):
the exact sum rounded to the nearest double. -/
def jsAddInt (a b : Int) : Int :=
  nearestDouble (a + b)

/-- The two-word branch of `formatTimestamp` (script.js 423-426):
`timestamp.low * 1000 + timestamp.high * 4294967296000`, evaluated in JS
number (double) arithmetic. -/
def formatTimestampMillis (timestamp : Long) : Int :=
  jsAddInt (jsMulInt timestamp.low 1000) (jsMulInt timestamp.high 4294967296000)

/-- The input to `formatTimestamp`: absent, a plain number, or a protobuf.js
two-word value. -/
inductive JsTimestamp where
  | missing
  | num (n : Int)
  | long (l : Long)
deriving DecidableEq, Repr

/-- `formatTimestamp` (script.js 420-439) up to date rendering: the
milliseconds handed to `new Date`, with `none` for the `N/A` branch (a
missing timestamp, or the falsy number 0). -/
def formatTimestampDate : JsTimestamp → Option Int
  | JsTimestamp.missing => none
  | JsTimestamp.num n => if n = 0 then none else some n
  | JsTimestamp.long l => some (formatTimestampMillis l)

/-- Modelled from the spec: the exact integer-arithmetic conversion of the
two-word wide integer to displayable milliseconds, against which the code's
floating-point reconstruction is compared. The words are combined the way
the code reads them, `low + high * 2 ^ 32` seconds, times 1000. -/
def exactWideMillis (timestamp : Long) : Int :=
  (timestamp.low + timestamp.high * 4294967296) * 1000

/-- C5 counterexample: at the concrete two-word value `{low 1, high 1048576}`
the double reconstruction differs from exact integer arithmetic — the
rounded sum gains 24 milliseconds — so the conversion does go through
floating-point arithmetic that loses precision for large values. -/
theorem formatTimestamp_precision_loss :
    formatTimestampDate (JsTimestamp.long ⟨1, 1048576⟩) ≠
      some (exactWideMillis ⟨1, 1048576⟩) := by
  decide

lemma nearestDouble_small (n : Int) (h : n.natAbs < 2 ^ 53) :
    nearestDouble n = n := by
  unfold nearestDouble
  rw [if_pos h]

/-- C5 amended: the server passes the upstream two-word timestamp through
unchanged, and the client's double reconstruction agrees with exact integer
arithmetic as long as every quantity stays below `2 ^ 53` in magnitude
(which holds for all realistic vehicle timestamps, whose high word is 0);
outside that range precision is lost (see the counterexample). -/
theorem formatTimestamp_passthrough_and_inRange
    (v : VehicleInfo) (trip : TripDescriptor) (timestamp : Long)
    (hlow : timestamp.low.natAbs ≤ 2147483648)
    (hhigh : (timestamp.high * 4294967296000).natAbs < 9007199254740992)
    (hsum : (timestamp.low * 1000 + timestamp.high * 4294967296000).natAbs <
      9007199254740992) :
    (prettifyVehicle v trip).timestamp = v.timestamp ∧
    (prettifyVehicle v trip).rawTimestamp = v.timestamp ∧
    formatTimestampMillis timestamp = exactWideMillis timestamp := by
  refine ⟨rfl, rfl, ?_⟩
  unfold formatTimestampMillis jsAddInt jsMulInt exactWideMillis
  have h1 : (timestamp.low * 1000).natAbs < 2 ^ 53 := by
    rw [Int.natAbs_mul]
    have h2 : timestamp.low.natAbs * (1000 : Int).natAbs ≤ 2147483648 * 1000 :=
      Nat.mul_le_mul hlow (by norm_num)
    norm_num at h2 ⊢
    omega
  have h3 : (timestamp.high * 4294967296000).natAbs < 2 ^ 53 := by
    norm_num
    exact hhigh
  rw [nearestDouble_small _ h1, nearestDouble_small _ h3]
  rw [nearestDouble_small _ (by norm_num; exact hsum)]
  ring

/-- C5 amended witness: a realistic timestamp (seconds in the low word, high
word 0) is converted exactly, and the record passes it through unchanged. -/
theorem formatTimestamp_passthrough_and_inRange_witness :
    (prettifyVehicle
      ⟨some ⟨"N", some 1⟩, some ⟨some "1402"⟩, none, some 0, none, none,
        some ⟨1700000000, 0⟩⟩ ⟨"N", some 1⟩).timestamp = some ⟨1700000000, 0⟩ ∧
    (prettifyVehicle
      ⟨some ⟨"N", some 1⟩, some ⟨some "1402"⟩, none, some 0, none, none,
        some ⟨1700000000, 0⟩⟩ ⟨"N", some 1⟩).rawTimestamp = some ⟨1700000000, 0⟩ ∧
    formatTimestampMillis ⟨1700000000, 0⟩ = exactWideMillis ⟨1700000000, 0⟩ :=
  formatTimestamp_passthrough_and_inRange
    ⟨some ⟨"N", some 1⟩, some ⟨some "1402"⟩, none, some 0, none, none,
      some ⟨1700000000, 0⟩⟩ ⟨"N", some 1⟩ ⟨1700000000, 0⟩
    (by decide) (by decide) (by decide)

/-- A vehicle record as consumed by the client map code. -/
structure ClientVehicle where
  trainId : String
  direction : Option Int
  latitude : Option Int
  longitude : Option Int
  readableStatus : String
deriving DecidableEq, Repr

/-- Content of one prediction UI region: untouched, rendered predictions
under a stop-name header, the `No predictions available` placeholder, or an
error placeholder written by a catch block. -/
inductive Region where
  | initial
  | rendered (stopName : String) (predictions : List Prediction)
  | noPredictions (stopName : String)
  | errorText (message : String)
deriving DecidableEq, Repr

/-- The client display state touched by the sync loop: the two prediction
regions, the map marker set, the map-loaded flag, and the line filter. -/
structure ClientState where
  inboundRegion : Region
  outboundRegion : Region
  markers : List ClientVehicle
  mapLoaded : Bool
  selectedTrainLines : String → Bool

/-- `updatePredictionsDisplay` (script.js 282-301): render the stop header
and either the predictions list or the `No predictions available` text. -/
def updatePredictionsDisplay (now : Int) (data : StopData) : Region :=
  if extractPredictions now (some data) = [] then Region.noPredictions data.stopName
  else Region.rendered data.stopName (extractPredictions now (some data))

/-- The `/api/predictions` body as read by the client. -/
structure PredApiData where
  inbound : Option StopData
  outbound : Option StopData
deriving DecidableEq, Repr

/-- `processApiResponse` (script.js 307-315): update each direction's region
when its payload is present. -/
def processApiResponse (now : Int) (st : ClientState) (data : PredApiData) :
    ClientState :=
  match data.inbound, data.outbound with
  | some din, some dout =>
    { st with inboundRegion := updatePredictionsDisplay now din
              outboundRegion := updatePredictionsDisplay now dout }
  | some din, none => { st with inboundRegion := updatePredictionsDisplay now din }
  | none, some dout => { st with outboundRegion := updatePredictionsDisplay now dout }
  | none, none => st

/-- Client `fetchPredictions` (script.js 322-335): a failed fetch writes the
`Error loading predictions` placeholder into both regions. -/
def fetchPredictionsClient (now : Int) (st : ClientState)
    (response : Except String PredApiData) : ClientState :=
  match response with
  | Except.ok data => processApiResponse now st data
  | Except.error _ =>
    { st with inboundRegion := Region.errorText "Error loading predictions"
              outboundRegion := Region.errorText "Error loading predictions" }

/-- `trainLines.find(line => vehicle.trainId.startsWith(line))`
(script.js 695). -/
def markerLineOf (vehicle : ClientVehicle) : Option String :=
  trainLines.find? (fun line => vehicle.trainId.startsWith line)

/-- The `vehicles.filter` callback of `updateMapMarkers` (script.js 694-697). -/
def markerSelected (selectedTrainLines : String → Bool)
    (vehicle : ClientVehicle) : Bool :=
  match markerLineOf vehicle with
  | some line => selectedTrainLines line
  | none => false

/-- `updateMapMarkers` (script.js 690-759): full replace — every previous
marker removed, a new marker per selected vehicle. -/
def updateMapMarkers (selectedTrainLines : String → Bool)
    (vehicles : List ClientVehicle) : List ClientVehicle :=
  vehicles.filter (markerSelected selectedTrainLines)

/-- The `/api/vehicles` body as read by the client. -/
structure VehiclesData where
  vehicles : List ClientVehicle
deriving DecidableEq, Repr

/-- Client `fetchVehiclePositions` (script.js 498-514): on success the
markers are rebuilt only when the vehicle list is non-empty and the map has
loaded; every failure path only logs, leaving the state untouched. -/
def fetchVehiclePositionsClient (st : ClientState)
    (response : Except String VehiclesData) : ClientState :=
  match response with
  | Except.error _ => st
  | Except.ok data =>
    if data.vehicles.length > 0 ∧ st.mapLoaded = true then
      { st with markers := updateMapMarkers st.selectedTrainLines data.vehicles }
    else st

/-- A marker left over from a previous successful poll. -/
def exampleMarker : ClientVehicle :=
  ⟨"K2034", some 0, some 37, some (-122), "In Transit at Unknown Stop"⟩

/-- A client state holding that stale marker, with the map loaded and every
line enabled. -/
def exampleState : ClientState :=
  ⟨Region.rendered "Inbound to Downtown" [], Region.initial, [exampleMarker],
    true, fun _ => true⟩

/-- C4 counterexample: at a concrete client state holding a marker from the
previous poll, a failed vehicles fetch leaves the state unchanged — the
stale marker is retained and no error placeholder appears anywhere — so the
claim fails for the vehicles half. -/
theorem fetchVehiclePositions_error_retains_stale :
    fetchVehiclePositionsClient exampleState
      (Except.error "HTTP error! status: 500") = exampleState ∧
    (fetchVehiclePositionsClient exampleState
      (Except.error "HTTP error! status: 500")).markers = [exampleMarker] :=
  ⟨rfl, rfl⟩

/-- C4 amended: a failed predictions fetch sets both prediction regions to
the explicit `Error loading predictions` placeholder, retaining no stale
predictions; a failed vehicles fetch, by contrast, leaves the client state —
including the previously displayed markers — completely unchanged. -/
theorem clientFetch_error_handling (now : Int) (st : ClientState) (e : String) :
    fetchPredictionsClient now st (Except.error e) =
      { st with inboundRegion := Region.errorText "Error loading predictions"
                outboundRegion := Region.errorText "Error loading predictions" } ∧
    fetchVehiclePositionsClient st (Except.error e) = st :=
  ⟨rfl, rfl⟩

/-- C10: a successful vehicles fetch with an empty vehicle list, or one
arriving before the map has loaded, skips the marker reconciler branch
entirely: the client state is unchanged and the markers of the previous
poll remain displayed. -/
theorem fetchVehiclePositions_empty_keeps_markers (st : ClientState)
    (vehicles : List ClientVehicle)
    (h : vehicles = [] ∨ st.mapLoaded = false) :
    fetchVehiclePositionsClient st (Except.ok ⟨vehicles⟩) = st := by
  unfold fetchVehiclePositionsClient
  rcases h with rfl | hmap
  · simp
  · simp [hmap]

/-- C10 witness: at the concrete state holding a stale marker, an ok
response with an empty vehicle list leaves the marker set untouched. -/
theorem fetchVehiclePositions_empty_keeps_markers_witness :
    fetchVehiclePositionsClient exampleState (Except.ok ⟨[]⟩) = exampleState :=
  fetchVehiclePositions_empty_keeps_markers exampleState [] (Or.inl rfl)
